import Mathlib

set_option maxRecDepth 400000
set_option linter.unusedVariables false

/-!
Verification development for the JRC clearcut-analysis scripts.

The repository consists of three QGIS console scripts:
* `Harvest_Biomass_Stats.py` — zonal sampling of a biomass raster inside
  harvest polygons (`extract_raster_values_in_polygon`) plus a per-feature
  statistics loop (`extract_biomass_statistics`);
* `calculate_shape_metrics.py` — per-polygon shape metrics
  (`calculate_feature_metrics`, `calculate_elongation_and_orientation`);
* `harvest_prob_extract.py` — two raster-to-CSV extraction paths
  (`extract_raster_values_to_csv`, `extract_raster_values_to_csv_numpy`).

The embedding below models Python floats by exact rationals.  A float value
that may be NaN is modelled by `F32` (a rational or NaN); grids are functions
from cell indices (or sample points) to values.  Python exceptions caught by
the scripts' `try/except` blocks (in particular `ZeroDivisionError`) are
modelled by `Option`: a branch of the embedding returns `none` exactly where
the Python function would take its `except` path and return `None`.
-/

/-- Model of an IEEE float value as carried by the rasters: either NaN or an
exact rational.  (Infinities do not occur in any of the modelled data paths.) -/
inductive F32 where
  | nan : F32
  | val : ℚ → F32
deriving DecidableEq

/-- `np.isnan` on a modelled float value. -/
def F32.isnan : F32 → Bool
  | F32.nan => true
  | F32.val _ => false

/-- Python `int()` applied to a float: truncation toward zero
(the ceiling for negative arguments, the floor otherwise; written through
`Rat.floor` so that it evaluates by kernel reduction). -/
def pyInt (q : ℚ) : ℤ := if q < 0 then -((-q).floor) else q.floor

/-- Python `range(lo, hi + 1)` over integers, as a list (empty when `hi < lo`). -/
def intRange (lo hi : ℤ) : List ℤ :=
  (List.range (hi + 1 - lo).toNat).map (fun i : ℕ => lo + (i : ℤ))

/-- `numpy.mean` of a list of (non-NaN) values: sum divided by length. -/
def listMean (l : List ℚ) : ℚ := l.sum / l.length

/-- Round-half-to-even to an integer (the rounding rule of Python `round`). -/
def roundHalfEven (q : ℚ) : ℤ :=
  if q - ⌊q⌋ < 1/2 then ⌊q⌋
  else if 1/2 < q - ⌊q⌋ then ⌊q⌋ + 1
  else if ⌊q⌋ % 2 = 0 then ⌊q⌋ else ⌊q⌋ + 1

/-- Python `round(q, nd)`: round-half-to-even at `nd` decimal digits.
(The source rounds binary doubles; on the exact rationals of this model the
ideal decimal rule is used.) -/
def pyRound (nd : ℕ) (q : ℚ) : ℚ := (roundHalfEven (q * 10 ^ nd) : ℚ) / 10 ^ nd

/-! ## `Harvest_Biomass_Stats.py` — the zonal sampler -/

/-- The raster layer as seen by `extract_raster_values_in_polygon`:
its extent, pixel dimensions, and the data provider's point-sampling
primitive `provider.sample(point, 1)`, which returns a value (possibly `None`,
possibly NaN) together with a success flag. -/
structure RasterGrid where
  xMin : ℚ
  xMax : ℚ
  yMin : ℚ
  yMax : ℚ
  width : ℕ
  height : ℕ
  sample : ℚ → ℚ → Option F32 × Bool

/-- The polygon geometry as used by the sampler: its axis-aligned bounding
box (`geom.boundingBox()`) and its point-containment test (`geom.contains`). -/
structure Polygon where
  bboxXMin : ℚ
  bboxXMax : ℚ
  bboxYMin : ℚ
  bboxYMax : ℚ
  contains : ℚ → ℚ → Bool

/-- `pixel_size_x = (extent.xMaximum() - extent.xMinimum()) / width`. -/
def pixelSizeX (g : RasterGrid) : ℚ := (g.xMax - g.xMin) / (g.width : ℚ)

/-- `pixel_size_y = (extent.yMaximum() - extent.yMinimum()) / height`. -/
def pixelSizeY (g : RasterGrid) : ℚ := (g.yMax - g.yMin) / (g.height : ℚ)

/-- `min_col = max(0, int((bbox.xMinimum() - extent.xMinimum()) / pixel_size_x))`. -/
def minCol (g : RasterGrid) (p : Polygon) : ℤ :=
  max 0 (pyInt ((p.bboxXMin - g.xMin) / pixelSizeX g))

/-- `max_col = min(width - 1, int((bbox.xMaximum() - extent.xMinimum()) / pixel_size_x))`. -/
def maxCol (g : RasterGrid) (p : Polygon) : ℤ :=
  min ((g.width : ℤ) - 1) (pyInt ((p.bboxXMax - g.xMin) / pixelSizeX g))

/-- `min_row = max(0, int((extent.yMaximum() - bbox.yMaximum()) / pixel_size_y))`. -/
def minRow (g : RasterGrid) (p : Polygon) : ℤ :=
  max 0 (pyInt ((g.yMax - p.bboxYMax) / pixelSizeY g))

/-- `max_row = min(height - 1, int((extent.yMaximum() - bbox.yMinimum()) / pixel_size_y))`. -/
def maxRow (g : RasterGrid) (p : Polygon) : ℤ :=
  min ((g.height : ℤ) - 1) (pyInt ((g.yMax - p.bboxYMin) / pixelSizeY g))

/-- Pixel-center x coordinate: `extent.xMinimum() + (col + 0.5) * pixel_size_x`. -/
def centerX (g : RasterGrid) (col : ℤ) : ℚ := g.xMin + ((col : ℚ) + 1/2) * pixelSizeX g

/-- Pixel-center y coordinate: `extent.yMaximum() - (row + 0.5) * pixel_size_y`. -/
def centerY (g : RasterGrid) (row : ℤ) : ℚ := g.yMax - ((row : ℚ) + 1/2) * pixelSizeY g

/-- The cells visited by the double loop
`for row in range(min_row, max_row + 1): for col in range(min_col, max_col + 1)`,
in iteration order. -/
def examinedCells (g : RasterGrid) (p : Polygon) : List (ℤ × ℤ) :=
  (intRange (minRow g p) (maxRow g p)).flatMap fun row =>
    (intRange (minCol g p) (maxCol g p)).map fun col => (row, col)

/-- `total_pixels`: the number of cells visited by the loop. -/
def totalPixels (g : RasterGrid) (p : Polygon) : ℕ := (examinedCells g p).length

/-- The contribution of one visited cell to `valid_values` (loop body,
lines 232-244 of the source): test the pixel center for containment, sample,
and keep the value only when the sample succeeded, the value is not `None`,
not NaN, and strictly below the 65530 no-data threshold. -/
def cellValue (g : RasterGrid) (p : Polygon) (rc : ℤ × ℤ) : Option ℚ :=
  let x := centerX g rc.2
  let y := centerY g rc.1
  if p.contains x y then
    match g.sample x y with
    | (some (F32.val v), true) => if v < 65530 then some v else none
    | _ => none
  else none

/-- `valid_values` accumulated over the whole loop. -/
def validValues (g : RasterGrid) (p : Polygon) : List ℚ :=
  (examinedCells g p).filterMap (cellValue g p)

/-- `coverage_pct = (len(valid_values) / total_pixels * 100) if total_pixels > 0 else 0`. -/
def coverage_pct (g : RasterGrid) (p : Polygon) : ℚ :=
  if 0 < totalPixels g p
  then ((validValues g p).length : ℚ) / (totalPixels g p : ℚ) * 100
  else 0

/-- The dictionary returned by `extract_raster_values_in_polygon`. -/
structure SampleResult where
  values : List ℚ
  pixel_count : ℕ
  coverage_pct : ℚ
deriving DecidableEq

instance : Inhabited SampleResult := ⟨⟨[], 0, 0⟩⟩

/-- `extract_raster_values_in_polygon(raster_layer, polygon_geom, pixel_area_ha)`.
The `pixel_area_ha` argument is accepted but never used, as in the source.
A zero pixel size (zero `width`/`height` or a degenerate extent) makes the
Python function raise `ZeroDivisionError`, caught by its `try/except`, which
returns `None`; the first branch models that. -/
def extract_raster_values_in_polygon (g : RasterGrid) (p : Polygon)
    (pixel_area_ha : ℚ) : Option SampleResult :=
  if pixelSizeX g = 0 ∨ pixelSizeY g = 0 then none
  else if (validValues g p).length = 0 then none
  else some { values := validValues g p
              pixel_count := (validValues g p).length
              coverage_pct := coverage_pct g p }

/-- The per-feature decision of the caller `extract_biomass_statistics`
(lines 118-124): call the sampler and, when it returns `None` or an empty
result, skip the feature and emit a warning.  The first component is the
statistics payload passed on to the row construction (`none` = no `StatRow`
is produced); the second component records whether the warning was printed. -/
def featureStep (g : RasterGrid) (p : Polygon) (pixel_area_ha : ℚ) :
    Option SampleResult × Bool :=
  match extract_raster_values_in_polygon g p pixel_area_ha with
  | none => (none, true)
  | some st => if st.pixel_count = 0 then (none, true) else (some st, false)

/-! ## `calculate_shape_metrics.py` — shape metrics -/

/-- The squared-length-then-square-root side computation of
`calculate_elongation_and_orientation`: for each consecutive vertex pair of
the (closed) oriented-bounding-box ring, `sqrt(dx*dx + dy*dy)`.
`sq` is the abstract model of `math.sqrt`. -/
def sideLengths (sq : ℚ → ℚ) (vs : List (ℚ × ℚ)) : List ℚ :=
  (vs.zip vs.tail).map fun pq =>
    sq ((pq.2.1 - pq.1.1) * (pq.2.1 - pq.1.1) + (pq.2.2 - pq.1.2) * (pq.2.2 - pq.1.2))

/-- `list(set(round(length, 2) for length in side_lengths))` — the distinct
side lengths after rounding to two decimals (set order is irrelevant because
the code sorts the list immediately afterwards). -/
def uniqueLengths (sq : ℚ → ℚ) (vs : List (ℚ × ℚ)) : List ℚ :=
  ((sideLengths sq vs).map (pyRound 2)).dedup

/-- `calculate_elongation_and_orientation(geom)`.
`sq` models `math.sqrt` and `at2` models `math.degrees(math.atan2(dy, dx))`
(both transcendental, hence abstract parameters of the embedding);
`obb` is `geom.orientedMinimumBoundingBox()[0]` given as its vertex ring
(`none` when the bounding box is unavailable or not a polygon). -/
def calculate_elongation_and_orientation (sq : ℚ → ℚ) (at2 : ℚ → ℚ → ℚ)
    (obb : Option (List (ℚ × ℚ))) : ℚ × ℚ :=
  match obb with
  | none => (1, 0)
  | some vertices =>
    if vertices.length < 4 then (1, 0)
    else if (sideLengths sq vertices).length < 2 then (1, 0)
    else if (uniqueLengths sq vertices).length < 2 then (1, 0)
    else
      let sorted := (uniqueLengths sq vertices).insertionSort (· ≤ ·)
      let minor_axis := sorted.getD 0 0
      let major_axis := sorted.getD 1 0
      let elongation := if 0 < minor_axis then major_axis / minor_axis else 1
      let res := (vertices.zip vertices.tail).foldl
        (fun acc pq =>
          let dx := pq.2.1 - pq.1.1
          let dy := pq.2.2 - pq.1.2
          let len := sq (dx * dx + dy * dy)
          if acc.1 < len then (len, at2 dy dx) else acc)
        ((0 : ℚ), (0 : ℚ))
      let angle := if res.2 < 0 then res.2 + 180 else res.2
      (elongation, angle)

/-- The geometry attributes consumed by `calculate_feature_metrics`:
`geom.area()`, `geom.length()`, the axis-aligned `geom.boundingBox()` width
and height, and the oriented minimum bounding box ring. -/
structure GeomMetrics where
  area_m2 : ℚ
  perimeter_m : ℚ
  bbox_w : ℚ
  bbox_h : ℚ
  obb : Option (List (ℚ × ℚ))

/-- The row computed by `calculate_feature_metrics` (unrounded values; the
CSV serialisation applies `round(, nd)` on top of these).  The source's
`perimeter_area_ratio` and `elongation_ratio` fields are named
`perimeter_per_area` and `elongation` here. -/
structure FeatureRow where
  area_ha : ℚ
  perimeter_m : ℚ
  length_m : ℚ
  width_m : ℚ
  equivalent_diameter_m : ℚ
  shape_index : ℚ
  perimeter_per_area : ℚ
  compactness_index : ℚ
  fractal_dimension_index : ℚ
  elongation : ℚ
  orientation_degrees : ℚ
  edge_density : ℚ

/-- `calculate_feature_metrics(feature, geom)`.
`pi` models `math.pi`, `lg` models `math.log`, `sq` models `math.sqrt`, `at2`
models `math.degrees(math.atan2(dy, dx))`.  The function returns `none` when
the feature is skipped: either the small-area guard `area_ha < 0.1` fires, or
a division by zero would raise a `ZeroDivisionError` that the source's
`try/except` turns into `return None` (denominators: `pi` for the equivalent
diameter, `2*sqrt(pi*area)` for the shape index, `perimeter**2` for
compactness, `area` for the ratios, and `log(area)` when the fractal
branch is taken). -/
def calculate_feature_metrics (pi : ℚ) (lg sq : ℚ → ℚ) (at2 : ℚ → ℚ → ℚ)
    (geo : GeomMetrics) : Option FeatureRow :=
  let area_m2 := geo.area_m2
  let area_ha := area_m2 / 10000
  let perimeter_m := geo.perimeter_m
  if area_ha < 1/10 then none
  else if pi = 0 ∨ perimeter_m = 0 ∨ 2 * sq (pi * area_m2) = 0 ∨
       (0 < area_m2 ∧ 0 < perimeter_m ∧ lg area_m2 = 0) then none
  else
    let eo := calculate_elongation_and_orientation sq at2 geo.obb
    some { area_ha := area_ha
           perimeter_m := perimeter_m
           length_m := max geo.bbox_w geo.bbox_h
           width_m := min geo.bbox_w geo.bbox_h
           equivalent_diameter_m := 2 * sq (area_m2 / pi)
           shape_index := perimeter_m / (2 * sq (pi * area_m2))
           perimeter_per_area := perimeter_m / area_m2
           compactness_index := 4 * pi * area_m2 / perimeter_m ^ 2
           fractal_dimension_index :=
             if 0 < area_m2 ∧ 0 < perimeter_m
             then 2 * lg (perimeter_m / 4) / lg area_m2 else 0
           elongation := eo.1
           orientation_degrees := eo.2
           edge_density := perimeter_m / area_m2 }

/-! ## `harvest_prob_extract.py` — the two CSV extraction paths -/

/-- Python `!=` on two (possibly NaN) float values: any comparison involving
NaN is *unequal* — in particular `x != nan` is `True` even for `x = nan`. -/
def f32ne (a b : F32) : Bool :=
  match a, b with
  | F32.val p, F32.val q => decide (p ≠ q)
  | _, _ => true

/-- Python `==` against the constant `1` (the `harvest_value == 1` mask test;
NaN compares unequal to everything). -/
def f32isOne : F32 → Bool
  | F32.val v => decide (v = 1)
  | F32.nan => false

/-- The three aligned rasters read by `harvest_prob_extract.py`: the shared
extent and pixel dimensions of the `Harvest_10m` layer, the per-cell values
of the three grids, and the declared source no-data values of the
`AGB_Masked` and `harvest_prob_10m` layers.  Sampling a pixel center returns
that pixel's stored value, so both code paths read the same numbers. -/
structure ExtractScene where
  width : ℕ
  height : ℕ
  xMin : ℚ
  xMax : ℚ
  yMin : ℚ
  yMax : ℚ
  harvest : ℕ → ℕ → F32
  agb : ℕ → ℕ → F32
  prob : ℕ → ℕ → F32
  agbNoData : F32
  probNoData : F32

/-- `extent.width() / width` of the harvest layer. -/
def scenePixelSizeX (s : ExtractScene) : ℚ := (s.xMax - s.xMin) / (s.width : ℚ)

/-- `extent.height() / height` of the harvest layer. -/
def scenePixelSizeY (s : ExtractScene) : ℚ := (s.yMax - s.yMin) / (s.height : ℚ)

/-- All pixel indices in row-major order: the iteration order of the nested
`for row in range(height): for col in range(width)` loop, and also the order
in which `np.where` lists the `harvest == 1` positions. -/
def sceneCells (s : ExtractScene) : List (ℕ × ℕ) :=
  (List.range s.height).flatMap fun r => (List.range s.width).map fun c => (r, c)

/-- World x coordinate of a pixel center: `xMinimum + (col + 0.5) * pixel_size_x`. -/
def sceneX (s : ExtractScene) (c : ℕ) : ℚ := s.xMin + ((c : ℚ) + 1/2) * scenePixelSizeX s

/-- World y coordinate of a pixel center: `yMaximum - (row + 0.5) * pixel_size_y`. -/
def sceneY (s : ExtractScene) (r : ℕ) : ℚ := s.yMax - ((r : ℚ) + 1/2) * scenePixelSizeY s

/-- `extract_raster_values_to_csv()`: the per-pixel sampling path.  The data
rows appended after the constant header: for every pixel whose harvest value
equals 1, sample AGB and probability and keep the row when both values are
not `None` and differ (Python `!=`) from their layers' declared source
no-data values. -/
def extract_raster_values_to_csv (s : ExtractScene) : List (ℚ × ℚ × F32 × F32) :=
  (sceneCells s).filterMap fun rc =>
    let x := sceneX s rc.2
    let y := sceneY s rc.1
    if f32isOne (s.harvest rc.1 rc.2) then
      let agb_value := s.agb rc.1 rc.2
      let harvest_prob_value := s.prob rc.1 rc.2
      if f32ne agb_value s.agbNoData && f32ne harvest_prob_value s.probNoData
      then some (x, y, agb_value, harvest_prob_value)
      else none
    else none

/-- `extract_raster_values_to_csv_numpy()`: the bulk-array path.  Reads the
blocks into arrays, masks `harvest == 1`, and keeps a row when neither the
AGB nor the probability value `np.isnan` — the declared no-data values are
never consulted on this path. -/
def extract_raster_values_to_csv_numpy (s : ExtractScene) : List (ℚ × ℚ × F32 × F32) :=
  (sceneCells s).filterMap fun rc =>
    if f32isOne (s.harvest rc.1 rc.2) then
      let agb_val := s.agb rc.1 rc.2
      let harvest_prob_val := s.prob rc.1 rc.2
      if agb_val.isnan || harvest_prob_val.isnan then none
      else some (sceneX s rc.2, sceneY s rc.1, agb_val, harvest_prob_val)
    else none

/-! ## Concrete instances used in the example scenario, witnesses and
counterexamples -/

/-- The grid of the spec's example scenario: origin `(0,100)`, pixel size
`(10,10)`, 10×10 cells, every sampled value `5` except cell `(0,0)` (the
cell whose centers satisfy `x < 10` and `y > 90`), which holds the no-data
sentinel `65535`.  Sampling always succeeds. -/
def g1 : RasterGrid :=
  { xMin := 0, xMax := 100, yMin := 0, yMax := 100, width := 10, height := 10
    sample := fun x y =>
      (some (if x < 10 ∧ 90 < y then F32.val 65535 else F32.val 5), true) }

/-- The polygon of the example scenario: the full grid bounding box
`[0,100] × [0,100]`. -/
def p1 : Polygon :=
  { bboxXMin := 0, bboxXMax := 100, bboxYMin := 0, bboxYMax := 100
    contains := fun x y => decide (0 ≤ x ∧ x ≤ 100 ∧ 0 ≤ y ∧ y ≤ 100) }

/-- A small 2×1 uniform grid (extent `[0,20] × [0,10]`, both sampled values
`7`) used to witness the sampler invariants. -/
def gSmall : RasterGrid :=
  { xMin := 0, xMax := 20, yMin := 0, yMax := 10, width := 2, height := 1
    sample := fun _ _ => (some (F32.val 7), true) }

/-- The full bounding box of `gSmall` as a polygon. -/
def pBox2 : Polygon :=
  { bboxXMin := 0, bboxXMax := 20, bboxYMin := 0, bboxYMax := 10
    contains := fun x y => decide (0 ≤ x ∧ x ≤ 20 ∧ 0 ≤ y ∧ y ≤ 10) }

/-- A polygon entirely outside the grids above (bounding box
`[-30,-20] × [-30,-20]`, containing no point). -/
def pFar : Polygon :=
  { bboxXMin := -30, bboxXMax := -20, bboxYMin := -30, bboxYMax := -20
    contains := fun _ _ => false }

/-- Concrete stand-in for `math.degrees(math.atan2(dy, dx))`: exact on the
four axis directions (the only directions evaluated by the concrete
rectangles below), an arbitrary in-range value off-axis.  Its values always
lie in atan2's range `(-180, 180]`. -/
def atan2DegModel (dy dx : ℚ) : ℚ :=
  if 0 < dx ∧ dy = 0 then 0
  else if dx < 0 ∧ dy = 0 then 180
  else if 0 < dy ∧ dx = 0 then 90
  else if dy < 0 ∧ dx = 0 then -90
  else if 0 < dy then 45
  else if dy < 0 then -45
  else 0

/-- Concrete stand-in for `math.sqrt`: exact on the squared side lengths `1`
and `4` that occur in the concrete rectangles below; the identity elsewhere
(where only its non-vanishing matters). -/
def ratSqrtModel (q : ℚ) : ℚ := if q = 1 then 1 else if q = 4 then 2 else q

/-- Concrete stand-in for `math.log` in witnesses (only the branch structure
of the metric computations depends on it). -/
def logModel (q : ℚ) : ℚ := q - 1

/-- An axis-aligned 2×1 rectangle ring whose *first longest* edge
(`(2,1) → (0,1)`) points in the negative-x direction. -/
def rect0 : List (ℚ × ℚ) := [(2, 0), (2, 1), (0, 1), (0, 0), (2, 0)]

/-- A 1-hectare geometry (area 10000 m², perimeter 400 m) with no oriented
bounding box available. -/
def geom0 : GeomMetrics :=
  { area_m2 := 10000, perimeter_m := 400, bbox_w := 100, bbox_h := 100, obb := none }

/-- A geometry below the 0.1 ha threshold (area 500 m²). -/
def geom9 : GeomMetrics :=
  { area_m2 := 500, perimeter_m := 90, bbox_w := 25, bbox_h := 20, obb := none }

/-- A one-pixel scene whose AGB value *equals* the declared AGB no-data
value (finite, not NaN — `9` here, playing the role of a sentinel such as
PathFinder's 65535) at a `harvest = 1` pixel: the per-pixel path drops the
row, the numpy path keeps it. -/
def scene0 : ExtractScene :=
  { width := 1, height := 1, xMin := 0, xMax := 10, yMin := 0, yMax := 10
    harvest := fun _ _ => F32.val 1
    agb := fun _ _ => F32.val 9
    prob := fun _ _ => F32.val 1
    agbNoData := F32.val 9
    probNoData := F32.val 0 }

/-- A one-pixel scene with ordinary values (no NaN, nothing equal to a
no-data value). -/
def scene1 : ExtractScene :=
  { width := 1, height := 1, xMin := 0, xMax := 10, yMin := 0, yMax := 10
    harvest := fun _ _ => F32.val 1
    agb := fun _ _ => F32.val 7
    prob := fun _ _ => F32.val (1/2)
    agbNoData := F32.val 9
    probNoData := F32.val 0 }

/-! ## Helper lemmas -/

/-- `pyInt` agrees with the ceiling/floor description of truncation toward
zero. -/
theorem pyInt_eq (q : ℚ) : pyInt q = if q < 0 then ⌈q⌉ else ⌊q⌋ := by
  unfold pyInt
  by_cases h : q < 0
  · rw [if_pos h, if_pos h]
    have h1 : (Rat.floor (-q) : ℤ) = ⌊-q⌋ := rfl
    rw [h1, ← Int.ceil_neg, neg_neg]
  · rw [if_neg h, if_neg h]; rfl

/-- Membership in `intRange` is exactly the closed integer interval. -/
theorem mem_intRange {lo hi z : ℤ} : z ∈ intRange lo hi ↔ lo ≤ z ∧ z ≤ hi := by
  unfold intRange
  rw [List.mem_map]
  constructor
  · rintro ⟨i, hi', rfl⟩
    have hlt := List.mem_range.mp hi'
    omega
  · intro h
    exact ⟨(z - lo).toNat, List.mem_range.mpr (by omega), by omega⟩

/-- A cell is visited by the loop iff its indices lie in the clamped ranges. -/
theorem mem_examinedCells {g : RasterGrid} {p : Polygon} {rc : ℤ × ℤ} :
    rc ∈ examinedCells g p ↔
      minRow g p ≤ rc.1 ∧ rc.1 ≤ maxRow g p ∧
      minCol g p ≤ rc.2 ∧ rc.2 ≤ maxCol g p := by
  obtain ⟨r, c⟩ := rc
  unfold examinedCells
  rw [List.mem_flatMap]
  constructor
  · rintro ⟨row, hrow, hmem⟩
    obtain ⟨col, hcol, heq⟩ := List.mem_map.mp hmem
    obtain ⟨h1, h2⟩ := mem_intRange.mp hrow
    obtain ⟨h3, h4⟩ := mem_intRange.mp hcol
    cases heq
    exact ⟨h1, h2, h3, h4⟩
  · rintro ⟨h1, h2, h3, h4⟩
    exact ⟨r, mem_intRange.mpr ⟨h1, h2⟩,
      List.mem_map.mpr ⟨c, mem_intRange.mpr ⟨h3, h4⟩, rfl⟩⟩

/-- Characterisation of a kept cell value: the center is inside the polygon,
the sample succeeded with a plain (non-`None`, non-NaN) value, and the value
is below the no-data threshold. -/
theorem cellValue_eq_some {g : RasterGrid} {p : Polygon} {rc : ℤ × ℤ} {v : ℚ} :
    cellValue g p rc = some v ↔
      p.contains (centerX g rc.2) (centerY g rc.1) = true ∧
      g.sample (centerX g rc.2) (centerY g rc.1) = (some (F32.val v), true) ∧
      v < 65530 := by
  constructor
  · intro h
    simp only [cellValue] at h
    split_ifs at h with hc
    · rcases hs : g.sample (centerX g rc.2) (centerY g rc.1) with ⟨ov, b⟩
      rw [hs] at h
      rcases ov with _ | f
      · cases b <;> simp at h
      · rcases f with _ | w
        · cases b <;> simp at h
        · cases b
          · simp at h
          · simp only [] at h
            split_ifs at h with hw
            · obtain rfl := Option.some.inj h
              exact ⟨hc, rfl, hw⟩
  · rintro ⟨hc, hs, hv⟩
    simp only [cellValue, hc, if_true, hs]
    rw [if_pos hv]

/-- There are no more valid values than visited cells. -/
theorem validValues_length_le (g : RasterGrid) (p : Polygon) :
    (validValues g p).length ≤ totalPixels g p :=
  List.length_filterMap_le _ _

/-- Characterisation of a successful sampler run. -/
theorem extract_eq_some {g : RasterGrid} {p : Polygon} {a : ℚ} {r : SampleResult} :
    extract_raster_values_in_polygon g p a = some r ↔
      ¬(pixelSizeX g = 0 ∨ pixelSizeY g = 0) ∧ (validValues g p).length ≠ 0 ∧
      r = ⟨validValues g p, (validValues g p).length, coverage_pct g p⟩ := by
  unfold extract_raster_values_in_polygon
  split_ifs with h1 h2
  · simp [h1]
  · simp [h1, h2]
  · constructor
    · intro h
      exact ⟨h1, h2, (Option.some.inj h).symm⟩
    · rintro ⟨-, -, rfl⟩
      rfl

/-! ## Claim theorems -/

/-- C1: for the grid with origin (0,100), pixel size (10,10), 10×10 cells,
every value 5 except cell (0,0) holding the no-data sentinel 65535, and the
polygon equal to the full grid bounding box, the sampler returns
`pixel_count = 99`, `coverage_pct = 99.0`, and the mean of the returned
values is `5.0`. -/
theorem c1_example_scenario :
    (extract_raster_values_in_polygon g1 p1 (1/100)).map SampleResult.pixel_count
        = some 99 ∧
    (extract_raster_values_in_polygon g1 p1 (1/100)).map SampleResult.coverage_pct
        = some 99 ∧
    (extract_raster_values_in_polygon g1 p1 (1/100)).map (fun r => listMean r.values)
        = some 5 :=
  of_decide_eq_true (by with_unfolding_all rfl)

/-- C4: a value is appended to the sampler's value list iff some visited
cell has its center inside the polygon and sampling at that center succeeded
with a non-`None`, non-NaN value strictly below the no-data threshold 65530
(at-or-above-threshold values are rejected, not only the exact sentinel). -/
theorem c4_value_filter (g : RasterGrid) (p : Polygon) (v : ℚ) :
    v ∈ validValues g p ↔
      ∃ rc ∈ examinedCells g p,
        p.contains (centerX g rc.2) (centerY g rc.1) = true ∧
        g.sample (centerX g rc.2) (centerY g rc.1) = (some (F32.val v), true) ∧
        v < 65530 := by
  unfold validValues
  rw [List.mem_filterMap]
  constructor
  · rintro ⟨rc, hrc, hcv⟩
    exact ⟨rc, hrc, cellValue_eq_some.mp hcv⟩
  · rintro ⟨rc, hrc, h⟩
    exact ⟨rc, hrc, cellValue_eq_some.mpr h⟩

/-- C5: when no valid values are collected — empty clamped range or every
in-polygon cell no-data — the sampler returns `None` and the caller's
per-feature step produces no row and emits the warning. -/
theorem c5_empty_skip (g : RasterGrid) (p : Polygon) (a : ℚ)
    (h : validValues g p = []) :
    extract_raster_values_in_polygon g p a = none ∧
    featureStep g p a = (none, true) := by
  have he : extract_raster_values_in_polygon g p a = none := by
    unfold extract_raster_values_in_polygon
    split_ifs with h1 h2
    · rfl
    · rfl
    · exact absurd (by rw [h]; rfl) h2
  exact ⟨he, by unfold featureStep; rw [he]⟩

/-- C5 witness: a polygon entirely outside the grid extent collects no
values, the sampler returns `None`, and the feature is skipped with a
warning. -/
theorem c5_empty_skip_witness :
    extract_raster_values_in_polygon gSmall pFar 1 = none ∧
    featureStep gSmall pFar 1 = (none, true) :=
  c5_empty_skip gSmall pFar 1 (of_decide_eq_true (by with_unfolding_all rfl))

/-- C2: for every run in which the sampler returns a result, the returned
coverage percentage equals `100 * valid_count / total_cells_examined` over
the full clamped bounding-box range, and the internal coverage value is `0`
when no cells were examined. -/
theorem c2_coverage_formula (g : RasterGrid) (p : Polygon) (a : ℚ) (r : SampleResult)
    (h : extract_raster_values_in_polygon g p a = some r) :
    r.coverage_pct = 100 * (r.pixel_count : ℚ) / (totalPixels g p : ℚ) ∧
    (totalPixels g p = 0 → coverage_pct g p = 0) := by
  obtain ⟨h1, h2, rfl⟩ := extract_eq_some.mp h
  constructor
  · show coverage_pct g p = _
    have hle := validValues_length_le g p
    have htp : 0 < totalPixels g p := by
      have := Nat.pos_of_ne_zero h2
      omega
    unfold coverage_pct
    rw [if_pos htp]
    show ((validValues g p).length : ℚ) / _ * 100
        = 100 * ((validValues g p).length : ℚ) / _
    ring
  · intro h0
    unfold coverage_pct
    rw [if_neg (by omega)]

/-- C2 witness: a concrete run on the 2×1 grid covered by its bounding box. -/
theorem c2_coverage_formula_witness :
    ((extract_raster_values_in_polygon gSmall pBox2 1).get!).coverage_pct
      = 100 * (((extract_raster_values_in_polygon gSmall pBox2 1).get!).pixel_count : ℚ)
        / (totalPixels gSmall pBox2 : ℚ) :=
  (c2_coverage_formula gSmall pBox2 1
    ((extract_raster_values_in_polygon gSmall pBox2 1).get!)
    (of_decide_eq_true (by with_unfolding_all rfl))).1

/-- C10: every non-`None` sampler result satisfies the invariant:
`pixel_count` equals the length of the value list, at least one value was
collected, every value is strictly below the 65530 no-data threshold (and,
by construction of the value list, none is NaN), and the coverage percentage
lies in `(0, 100]`. -/
theorem c10_result_invariant (g : RasterGrid) (p : Polygon) (a : ℚ) (r : SampleResult)
    (h : extract_raster_values_in_polygon g p a = some r) :
    r.pixel_count = r.values.length ∧ 1 ≤ r.pixel_count ∧
    (∀ v ∈ r.values, v < 65530) ∧ 0 < r.coverage_pct ∧ r.coverage_pct ≤ 100 := by
  obtain ⟨h1, h2, rfl⟩ := extract_eq_some.mp h
  have hle := validValues_length_le g p
  have hpos : 0 < (validValues g p).length := Nat.pos_of_ne_zero h2
  have htp : 0 < totalPixels g p := lt_of_lt_of_le hpos hle
  have c1 : (0:ℚ) < ((validValues g p).length : ℚ) := by exact_mod_cast hpos
  have c2 : (0:ℚ) < (totalPixels g p : ℚ) := by exact_mod_cast htp
  refine ⟨rfl, hpos, ?_, ?_, ?_⟩
  · intro v hv
    obtain ⟨rc, hrc, hcv⟩ := List.mem_filterMap.mp hv
    exact (cellValue_eq_some.mp hcv).2.2
  · show 0 < coverage_pct g p
    unfold coverage_pct
    rw [if_pos htp]
    exact mul_pos (div_pos c1 c2) (by norm_num)
  · show coverage_pct g p ≤ 100
    unfold coverage_pct
    rw [if_pos htp]
    have hq : ((validValues g p).length : ℚ) / (totalPixels g p : ℚ) ≤ 1 := by
      rw [div_le_one c2]
      exact_mod_cast hle
    linarith

/-- C10 witness: the invariant instantiated on a concrete successful run. -/
theorem c10_result_invariant_witness :
    1 ≤ ((extract_raster_values_in_polygon gSmall pBox2 1).get!).pixel_count ∧
    0 < ((extract_raster_values_in_polygon gSmall pBox2 1).get!).coverage_pct ∧
    ((extract_raster_values_in_polygon gSmall pBox2 1).get!).coverage_pct ≤ 100 := by
  obtain ⟨-, h2, -, h4, h5⟩ := c10_result_invariant gSmall pBox2 1
    ((extract_raster_values_in_polygon gSmall pBox2 1).get!)
    (of_decide_eq_true (by with_unfolding_all rfl))
  exact ⟨h2, h4, h5⟩

/-- Truncation bound, upper side: if `q ≤ n + 1/2` with `n ≥ 0`, then
`int(q) ≤ n`. -/
theorem pyInt_le_of_le_half {q : ℚ} {n : ℤ} (h0 : 0 ≤ n) (h : q ≤ (n : ℚ) + 1/2) :
    pyInt q ≤ n := by
  rw [pyInt_eq]
  split_ifs with hneg
  · exact Int.ceil_le.mpr (le_trans hneg.le (by exact_mod_cast h0))
  · have hf := Int.floor_le_floor h
    have hh : ⌊((n : ℚ) + 1/2)⌋ = n + ⌊(1/2 : ℚ)⌋ := Int.floor_int_add n (1/2)
    have hz : ⌊(1/2 : ℚ)⌋ = 0 := by
      rw [Int.floor_eq_zero_iff]
      constructor <;> norm_num
    omega

/-- Truncation bound, lower side: if `n + 1/2 ≤ q` with `n ≥ 0`, then
`n ≤ int(q)`. -/
theorem le_pyInt_of_half_le {q : ℚ} {n : ℤ} (h0 : 0 ≤ n) (h : (n : ℚ) + 1/2 ≤ q) :
    n ≤ pyInt q := by
  have hn : (0 : ℚ) ≤ (n : ℚ) := by exact_mod_cast h0
  rw [pyInt_eq, if_neg (by linarith)]
  exact Int.le_floor.mpr (by linarith)

/-- C3: the clamped bounding-box index range never excludes an in-grid cell
whose center lies inside the polygon (for a well-formed grid — positive cell
counts, non-degenerate extent — and a polygon contained in its own bounding
box). -/
theorem c3_bbox_never_excludes (g : RasterGrid) (p : Polygon)
    (hw : 0 < g.width) (hh : 0 < g.height)
    (hx : g.xMin < g.xMax) (hy : g.yMin < g.yMax)
    (hp : ∀ x y, p.contains x y = true →
      p.bboxXMin ≤ x ∧ x ≤ p.bboxXMax ∧ p.bboxYMin ≤ y ∧ y ≤ p.bboxYMax)
    (row col : ℤ) (hr0 : 0 ≤ row) (hrh : row < (g.height : ℤ))
    (hc0 : 0 ≤ col) (hcw : col < (g.width : ℤ))
    (hin : p.contains (centerX g col) (centerY g row) = true) :
    (row, col) ∈ examinedCells g p := by
  have hwq : (0 : ℚ) < (g.width : ℚ) := by exact_mod_cast hw
  have hhq : (0 : ℚ) < (g.height : ℚ) := by exact_mod_cast hh
  have hpsx : 0 < pixelSizeX g := div_pos (sub_pos.mpr hx) hwq
  have hpsy : 0 < pixelSizeY g := div_pos (sub_pos.mpr hy) hhq
  obtain ⟨hx1, hx2, hy1, hy2⟩ := hp _ _ hin
  rw [mem_examinedCells]
  refine ⟨?_, ?_, ?_, ?_⟩
  · -- minRow ≤ row
    apply max_le hr0
    apply pyInt_le_of_le_half hr0
    rw [div_le_iff₀ hpsy]
    unfold centerY at hy2
    linarith
  · -- row ≤ maxRow
    apply le_min (by omega)
    apply le_pyInt_of_half_le hr0
    rw [le_div_iff₀ hpsy]
    unfold centerY at hy1
    linarith
  · -- minCol ≤ col
    apply max_le hc0
    apply pyInt_le_of_le_half hc0
    rw [div_le_iff₀ hpsx]
    unfold centerX at hx1
    linarith
  · -- col ≤ maxCol
    apply le_min (by omega)
    apply le_pyInt_of_half_le hc0
    rw [le_div_iff₀ hpsx]
    unfold centerX at hx2
    linarith

/-- The example polygon is contained in its own bounding box. -/
theorem p1_in_bbox : ∀ x y, p1.contains x y = true →
    p1.bboxXMin ≤ x ∧ x ≤ p1.bboxXMax ∧ p1.bboxYMin ≤ y ∧ y ≤ p1.bboxYMax := by
  intro x y h
  simp only [p1, decide_eq_true_eq] at h ⊢
  exact ⟨h.1, h.2.1, h.2.2.1, h.2.2.2⟩

/-- C3 witness: cell `(0,0)` of the example grid, whose center `(5,95)` lies
inside the example polygon, is inside the clamped index range. -/
theorem c3_bbox_never_excludes_witness : ((0 : ℤ), (0 : ℤ)) ∈ examinedCells g1 p1 :=
  c3_bbox_never_excludes g1 p1 (by decide) (by decide)
    (of_decide_eq_true (by with_unfolding_all rfl))
    (of_decide_eq_true (by with_unfolding_all rfl))
    p1_in_bbox 0 0 (by decide) (by decide) (by decide) (by decide)
    (of_decide_eq_true (by with_unfolding_all rfl))

/-- C9: any feature whose polygon area is below 1000 m² (0.1 ha) yields no
metrics row — `calculate_feature_metrics` returns `None` and the caller
writes nothing to the CSV for it. -/
theorem c9_small_area_skipped (pi : ℚ) (lg sq : ℚ → ℚ) (at2 : ℚ → ℚ → ℚ)
    (geo : GeomMetrics) (h : geo.area_m2 < 1000) :
    calculate_feature_metrics pi lg sq at2 geo = none := by
  unfold calculate_feature_metrics
  rw [if_pos]
  linarith

/-- C9 witness: a 500 m² feature is skipped. -/
theorem c9_small_area_skipped_witness :
    calculate_feature_metrics 3 logModel ratSqrtModel atan2DegModel geom9 = none :=
  c9_small_area_skipped 3 logModel ratSqrtModel atan2DegModel geom9
    (of_decide_eq_true (by with_unfolding_all rfl))

/-- C6: whenever a metrics row is produced, its fractal dimension index is
`2*ln(perimeter/4)/ln(area)` when `area > 1` and `perimeter > 0`, and `0`
when `area ≤ 1` or `perimeter ≤ 0` (for produced rows the `area ≤ 1` case is
vacuous, since production requires `area ≥ 1000 m²`). -/
theorem c6_fractal_dimension (pi : ℚ) (lg sq : ℚ → ℚ) (at2 : ℚ → ℚ → ℚ)
    (geo : GeomMetrics)
    (h : (calculate_feature_metrics pi lg sq at2 geo).isSome = true) :
    (1 < geo.area_m2 ∧ 0 < geo.perimeter_m →
      (calculate_feature_metrics pi lg sq at2 geo).map FeatureRow.fractal_dimension_index
        = some (2 * lg (geo.perimeter_m / 4) / lg geo.area_m2)) ∧
    (geo.area_m2 ≤ 1 ∨ geo.perimeter_m ≤ 0 →
      (calculate_feature_metrics pi lg sq at2 geo).map FeatureRow.fractal_dimension_index
        = some 0) := by
  simp only [calculate_feature_metrics] at h ⊢
  by_cases h1 : geo.area_m2 / 10000 < 1/10
  · rw [if_pos h1] at h
    exact absurd h (by simp)
  · by_cases h2 : pi = 0 ∨ geo.perimeter_m = 0 ∨ 2 * sq (pi * geo.area_m2) = 0 ∨
        0 < geo.area_m2 ∧ 0 < geo.perimeter_m ∧ lg geo.area_m2 = 0
    · rw [if_neg h1, if_pos h2] at h
      exact absurd h (by simp)
    · rw [if_neg h1, if_neg h2]
      have harea : (1000 : ℚ) ≤ geo.area_m2 := by
        rw [not_lt] at h1
        linarith
      constructor
      · rintro ⟨ha, hp⟩
        simp only [Option.map_some']
        congr 1
        show (if 0 < geo.area_m2 ∧ 0 < geo.perimeter_m
              then 2 * lg (geo.perimeter_m / 4) / lg geo.area_m2 else 0) = _
        rw [if_pos ⟨by linarith, hp⟩]
      · rintro (ha | hp)
        · exfalso
          linarith
        · simp only [Option.map_some']
          congr 1
          show (if 0 < geo.area_m2 ∧ 0 < geo.perimeter_m
                then 2 * lg (geo.perimeter_m / 4) / lg geo.area_m2 else 0) = 0
          rw [if_neg]
          rintro ⟨-, hpp⟩
          exact absurd hpp (not_lt.mpr hp)

/-- C6 witness: on a produced row for a 1 ha polygon (area 10000 m²,
perimeter 400 m) the fractal dimension index is the guarded formula. -/
theorem c6_fractal_dimension_witness :
    (calculate_feature_metrics 3 logModel ratSqrtModel atan2DegModel geom0).map
        FeatureRow.fractal_dimension_index
      = some (2 * logModel (geom0.perimeter_m / 4) / logModel geom0.area_m2) :=
  (c6_fractal_dimension 3 logModel ratSqrtModel atan2DegModel geom0
    (of_decide_eq_true (by with_unfolding_all rfl))).1
    ⟨of_decide_eq_true (by with_unfolding_all rfl),
     of_decide_eq_true (by with_unfolding_all rfl)⟩

/-- The orientation accumulator of the longest-edge loop is either the
initial `0` or a value returned by `at2`. -/
theorem foldl_orientation_shape (sq : ℚ → ℚ) (at2 : ℚ → ℚ → ℚ) :
    ∀ (l : List ((ℚ × ℚ) × (ℚ × ℚ))) (acc : ℚ × ℚ),
      (acc.2 = 0 ∨ ∃ dy dx, acc.2 = at2 dy dx) →
      ((l.foldl
          (fun acc pq =>
            let dx := pq.2.1 - pq.1.1
            let dy := pq.2.2 - pq.1.2
            let len := sq (dx * dx + dy * dy)
            if acc.1 < len then (len, at2 dy dx) else acc)
          acc).2 = 0 ∨
        ∃ dy dx,
          (l.foldl
            (fun acc pq =>
              let dx := pq.2.1 - pq.1.1
              let dy := pq.2.2 - pq.1.2
              let len := sq (dx * dx + dy * dy)
              if acc.1 < len then (len, at2 dy dx) else acc)
            acc).2 = at2 dy dx) := by
  intro l
  induction l with
  | nil => exact fun acc h => h
  | cons pq t ih =>
    intro acc h
    rw [List.foldl_cons]
    apply ih
    dsimp only
    split_ifs with hlt
    · exact Or.inr ⟨_, _, rfl⟩
    · exact h

/-- Normalising an angle that is `0` or an atan2 value lands in `[0, 180]`. -/
theorem angle_bounds (at2 : ℚ → ℚ → ℚ)
    (hr : ∀ dy dx, -180 < at2 dy dx ∧ at2 dy dx ≤ 180)
    (r : ℚ) (h : r = 0 ∨ ∃ dy dx, r = at2 dy dx) :
    0 ≤ (if r < 0 then r + 180 else r) ∧ (if r < 0 then r + 180 else r) ≤ 180 := by
  rcases h with rfl | ⟨dy, dx, rfl⟩
  · norm_num
  · obtain ⟨hl, hu⟩ := hr dy dx
    split_ifs with hneg
    · constructor <;> linarith
    · constructor <;> linarith

/-- C7 (amended): provided `at2` returns angles in atan2's range
`(-180, 180]`, the orientation returned by
`calculate_elongation_and_orientation` lies in the *closed* interval
`[0, 180]`, and each degenerate case — missing bounding box, fewer than 4
listed vertices, or fewer than two distinct rounded side lengths (both sides
equal) — yields elongation `1.0`, orientation `0.0`. -/
theorem c7_orientation_range (sq : ℚ → ℚ) (at2 : ℚ → ℚ → ℚ)
    (obb : Option (List (ℚ × ℚ)))
    (hr : ∀ dy dx, -180 < at2 dy dx ∧ at2 dy dx ≤ 180) :
    (0 ≤ (calculate_elongation_and_orientation sq at2 obb).2 ∧
      (calculate_elongation_and_orientation sq at2 obb).2 ≤ 180) ∧
    (obb = none → calculate_elongation_and_orientation sq at2 obb = (1, 0)) ∧
    (∀ vs, obb = some vs → vs.length < 4 →
      calculate_elongation_and_orientation sq at2 obb = (1, 0)) ∧
    (∀ vs, obb = some vs → (uniqueLengths sq vs).length < 2 →
      calculate_elongation_and_orientation sq at2 obb = (1, 0)) := by
  rcases obb with _ | vs
  · refine ⟨⟨?_, ?_⟩, fun _ => rfl, ?_, ?_⟩
    · exact le_of_eq rfl
    · exact (show (0:ℚ) ≤ 180 by norm_num)
    · exact fun vs h => absurd h (by simp)
    · exact fun vs h => absurd h (by simp)
  · simp only [calculate_elongation_and_orientation]
    by_cases h4 : vs.length < 4
    · rw [if_pos h4]
      exact ⟨⟨by norm_num, by norm_num⟩, fun h => absurd h (by simp),
        fun _ _ _ => rfl, fun _ _ _ => rfl⟩
    · by_cases hs2 : (sideLengths sq vs).length < 2
      · rw [if_neg h4, if_pos hs2]
        exact ⟨⟨by norm_num, by norm_num⟩, fun h => absurd h (by simp),
          fun _ _ _ => rfl, fun _ _ _ => rfl⟩
      · by_cases hu2 : (uniqueLengths sq vs).length < 2
        · rw [if_neg h4, if_neg hs2, if_pos hu2]
          exact ⟨⟨by norm_num, by norm_num⟩, fun h => absurd h (by simp),
            fun _ _ _ => rfl, fun _ _ _ => rfl⟩
        · rw [if_neg h4, if_neg hs2, if_neg hu2]
          refine ⟨?_, fun h => absurd h (by simp), ?_, ?_⟩
          · exact angle_bounds at2 hr _
              (foldl_orientation_shape sq at2 (vs.zip vs.tail) (0, 0) (Or.inl rfl))
          · intro vs' h hlen
            cases h
            exact absurd hlen h4
          · intro vs' h hlen
            cases h
            exact absurd hlen hu2

/-- `atan2DegModel` always returns a value in atan2's range `(-180, 180]`. -/
theorem atan2DegModel_range : ∀ dy dx, -180 < atan2DegModel dy dx ∧ atan2DegModel dy dx ≤ 180 := by
  intro dy dx
  unfold atan2DegModel
  split_ifs <;> norm_num

/-- C7 counterexample: on the rectangle `rect0`, whose first longest edge
`(2,1) → (0,1)` points in the negative-x direction (`atan2(0, -2) = 180°`,
exactly reproduced by `atan2DegModel`), the returned orientation equals 180
— outside the half-open interval `[0, 180)` claimed by the specification. -/
theorem c7_orientation_counterexample :
    (calculate_elongation_and_orientation ratSqrtModel atan2DegModel (some rect0)).2 = 180 ∧
    ¬ (calculate_elongation_and_orientation ratSqrtModel atan2DegModel (some rect0)).2 < 180 :=
  of_decide_eq_true (by with_unfolding_all rfl)

/-- C7 witness: the closed-interval bound instantiated on `rect0` with the
concrete atan2 model. -/
theorem c7_orientation_range_witness :
    0 ≤ (calculate_elongation_and_orientation ratSqrtModel atan2DegModel (some rect0)).2 ∧
    (calculate_elongation_and_orientation ratSqrtModel atan2DegModel (some rect0)).2 ≤ 180 :=
  (c7_orientation_range ratSqrtModel atan2DegModel (some rect0) atan2DegModel_range).1

/-- C8 (amended): the per-pixel path and the numpy path produce the same data
rows exactly when, at every pixel passing the `harvest == 1` mask, the AGB
and probability values are neither NaN nor equal to their layers' declared
no-data values; in general the paths differ — the per-pixel path drops
values equal to the declared no-data value and keeps NaNs, while the numpy
path drops NaNs and keeps finite no-data values. -/
theorem c8_paths_agree (s : ExtractScene)
    (h : ∀ rc ∈ sceneCells s, f32isOne (s.harvest rc.1 rc.2) = true →
      (s.agb rc.1 rc.2).isnan = false ∧ (s.prob rc.1 rc.2).isnan = false ∧
      f32ne (s.agb rc.1 rc.2) s.agbNoData = true ∧
      f32ne (s.prob rc.1 rc.2) s.probNoData = true) :
    extract_raster_values_to_csv s = extract_raster_values_to_csv_numpy s := by
  unfold extract_raster_values_to_csv extract_raster_values_to_csv_numpy
  apply List.filterMap_congr
  intro rc hm
  by_cases hh : f32isOne (s.harvest rc.1 rc.2) = true
  · obtain ⟨h1, h2, h3, h4⟩ := h rc hm hh
    simp only [hh, if_true, h1, h2, h3, h4, Bool.and_self, Bool.or_self]
    rfl
  · rw [Bool.not_eq_true] at hh
    simp only [hh, Bool.false_eq_true, if_false]

/-- C8 counterexample: on `scene0` — one `harvest = 1` pixel whose AGB value
equals the finite declared no-data value — the per-pixel path emits no row
while the numpy path emits one, so the two paths are not equivalent. -/
theorem c8_paths_counterexample :
    extract_raster_values_to_csv scene0 ≠ extract_raster_values_to_csv_numpy scene0 :=
  of_decide_eq_true (by with_unfolding_all rfl)

/-- C8 witness: on a scene with ordinary values the two paths agree. -/
theorem c8_paths_agree_witness :
    extract_raster_values_to_csv scene1 = extract_raster_values_to_csv_numpy scene1 :=
  c8_paths_agree scene1 (of_decide_eq_true (by with_unfolding_all rfl))
